import Mathlib

/-!
Verification of the live capture and compositing session of the
poor-mans-loom repository against its natural-language specification.

The development shallowly embeds two recorder components and one utility
module:

* `src/components/recorder/screen-recorder.tsx` — the session orchestrator
  (`startRecording`, `cleanup`, `stopRecording`, `pauseRecording`,
  `resumeRecording`, the encoder `onstop` handler, the screen-track
  `onended` handler, `handleAudioSettingsChange`);
* `src/app/components/ScreenRecorder.tsx` — the canvas compositing loop
  (`drawVideoFrame`) and `cleanupStreams`;
* `src/unnamed/part_002` — the `startScreenCapture` utility.

Machine-level resources (media tracks, audio contexts, render loops) are
tracked in an explicit `World` of live resource ids, so that release and
leakage are observable.  JS numbers that only ever hold exact values
(canvas geometry) are embedded as rationals; timestamps as naturals.
-/

/-- A MediaStream: a bag of video track ids and audio track ids. -/
structure MediaStream where
  videoTracks : List Nat
  audioTracks : List Nat
deriving Repr, DecidableEq

/-- All track ids of a stream, video then audio. -/
def MediaStream.tracks (s : MediaStream) : List Nat :=
  s.videoTracks ++ s.audioTracks

/-- The browser-side resource world: ids of media tracks that are still
live (not stopped), audio contexts not yet closed, and per-frame render
loops still rescheduling. -/
structure World where
  liveTracks : List Nat
  liveContexts : List Nat
  liveLoops : List Nat
deriving Repr, DecidableEq

/-- Stop a set of tracks: they drop out of the live set.  Stopping an
already-stopped track is a no-op, as in the browser. -/
def World.stopTracks (w : World) (ts : List Nat) : World :=
  { w with liveTracks := w.liveTracks.filter fun t => decide (t ∉ ts) }

/-- Track ids held by an optional stream reference. -/
def tracksOf : Option MediaStream → List Nat
  | none => []
  | some m => m.tracks

/-- Modelled from the spec: `stopScreenCapture` of `src/lib/recorder/screen`
is not under `src/`; spec section 3 describes release of a CaptureSource as
stopping every track it holds, idempotent and null-safe. -/
def stopScreenCapture : Option MediaStream → World → World
  | none, w => w
  | some m, w => w.stopTracks m.tracks

/-- Modelled from the spec: `stopAudioStream` of `src/lib/recorder/audio`
is not under `src/`; same release contract as `stopScreenCapture`. -/
def stopAudioStream : Option MediaStream → World → World
  | none, w => w
  | some m, w => w.stopTracks m.tracks

/-- An audio mixer: one summation-graph context plus its mixed output
stream (the graph wiring itself is not claim-relevant). -/
structure AudioMixer where
  ctxId : Nat
  mixedStream : MediaStream
deriving Repr, DecidableEq

/-- Modelled from the spec: `createAudioMixer` of `src/lib/recorder/audio`
is not under `src/`; spec section 4.3 has it construct one audio context
summing 0-2 inputs into one output audio track.  The fresh context and
output track ids are supplied by the caller. -/
def createAudioMixer (_mic _sys : Option MediaStream) (ctxId outId : Nat)
    (w : World) : AudioMixer × World :=
  (⟨ctxId, ⟨[], [outId]⟩⟩,
   { w with liveContexts := ctxId :: w.liveContexts })

/-- Modelled from the spec: mixer `cleanup()` of `src/lib/recorder/audio`
releases the audio graph context; idempotent (spec section 4.3). -/
def AudioMixer.cleanup (m : AudioMixer) (w : World) : World :=
  { w with liveContexts := w.liveContexts.filter fun c => decide (c ≠ m.ctxId) }

/-- A video compositor: its continuously-rescheduled render loop and the
canvas capture stream it exposes. -/
structure Compositor where
  loopId : Nat
  canvasStream : MediaStream
deriving Repr, DecidableEq

/-- Modelled from the spec: compositor `cleanup()` of
`src/lib/recorder/compositor` is not under `src/`; spec section 4.2 has it
stop the render loop, idempotently. -/
def Compositor.cleanup (c : Compositor) (w : World) : World :=
  { w with liveLoops := w.liveLoops.filter fun l => decide (l ≠ c.loopId) }

/-- MediaRecorder lifecycle states, as the browser exposes them. -/
inductive MRState
  | inactive
  | recording
  | paused
deriving Repr, DecidableEq

/-- The encoder handle held in `mediaRecorderRef`. -/
structure MediaRecorderM where
  state : MRState
deriving Repr, DecidableEq

/-- The `RecordingState` value object of `src/lib/types`. -/
structure RecordingState where
  isRecording : Bool
  isPaused : Bool
  duration : Nat
  startTime : Option Nat
deriving Repr, DecidableEq

/-- The `AudioSettings` value of `src/lib/types`, as read by
`screen-recorder.tsx`. -/
structure AudioSettings where
  microphoneEnabled : Bool
  systemAudioEnabled : Bool
  microphoneDeviceId : Option Nat
deriving Repr, DecidableEq

/-- One of the four corner anchors for the camera overlay. -/
inductive CornerPos
  | topLeft
  | topRight
  | bottomLeft
  | bottomRight
deriving Repr, DecidableEq

/-- Discrete overlay size tier. -/
inductive SizeTier
  | small
  | medium
  | large
deriving Repr, DecidableEq

/-- Overlay shape. -/
inductive OverlayShape
  | rectangle
  | circle
deriving Repr, DecidableEq

/-- The `CameraSettings` value of `src/lib/types`. -/
structure CameraSettings where
  position : CornerPos
  size : SizeTier
  shape : OverlayShape
deriving Repr, DecidableEq

/-- The component state of `ScreenRecorder` in
`src/components/recorder/screen-recorder.tsx`: React state plus the
mutable refs, flattened into one record. -/
structure CState where
  recState : RecordingState
  cameraSettings : CameraSettings
  audioSettings : AudioSettings
  cameraEnabled : Bool
  cameraStream : Option MediaStream
  micStream : Option MediaStream
  systemAudioStream : Option MediaStream
  mediaRecorder : Option MediaRecorderM
  screenStream : Option MediaStream
  compositor : Option Compositor
  audioMixer : Option AudioMixer
  chunks : List Nat
  durationInterval : Option Nat
deriving Repr, DecidableEq

/-- Toast severities used by the component. -/
inductive ToastKind
  | error
  | warning
  | success
  | info
deriving Repr, DecidableEq

/-- The distinct user-facing messages of `screen-recorder.tsx`,
abbreviated to tags. -/
inductive Msg
  | screenCancelled
  | micUnavailable
  | compositorFailed
  | started
  | completed
  | paused
  | resumed
deriving Repr, DecidableEq

/-- Observable outputs of the orchestrator: toasts and the terminal
`onRecordingComplete(blob, duration)` callback.  A blob is embedded as
the list of chunk ids it concatenates. -/
inductive Ev
  | toast (kind : ToastKind) (m : Msg)
  | recordingComplete (blob : List Nat) (duration : Nat)
deriving Repr, DecidableEq

/-- The `cleanup` routine of `screen-recorder.tsx` (lines 82-108).
It clears the duration interval, stops the encoder if active and drops
its ref, tears down compositor and mixer, stops the screen stream, stops
the microphone stream, and nulls every reference.

`capturedMic` is the value of the `micStream` React state closed over by
the invoking callback: `cleanup` is a `useCallback` depending on
`micStream`, so a closure created in an earlier render sees that
render's value, not one set later via `setMicStream`.  The refs
(`screenStreamRef`, `compositorRef`, `audioMixerRef`, `mediaRecorderRef`,
`durationIntervalRef`) are mutable refs and always current, so they are
read from `s` directly. -/
def cleanup (capturedMic : Option MediaStream) (s : CState) (w : World) :
    CState × World :=
  let w := match s.compositor with
    | some c => c.cleanup w
    | none => w
  let w := match s.audioMixer with
    | some m => m.cleanup w
    | none => w
  let w := stopScreenCapture s.screenStream w
  let w := stopAudioStream capturedMic w
  ({ s with
      durationInterval := none
      mediaRecorder := none
      compositor := none
      audioMixer := none
      screenStream := none
      micStream := none
      systemAudioStream := none }, w)

/-- An invocation of `cleanup` whose closure is in sync with the current
state, i.e. the captured `micStream` is the one currently held. -/
def cleanupSync (s : CState) (w : World) : CState × World :=
  cleanup s.micStream s w

/-- The `stopRecording` callback (lines 228-232): requests encoder stop
when a recorder exists and is not inactive.  The browser fires the
registered `onstop` handler asynchronously afterwards. -/
def stopRecording (s : CState) : CState :=
  match s.mediaRecorder with
  | some mr =>
      if mr.state ≠ MRState.inactive then
        { s with mediaRecorder := some ⟨MRState.inactive⟩ }
      else s
  | none => s

/-- The optional-chaining guard `mediaRecorderRef.current?.state !==
'inactive'` of the track `onended` handler: when the ref is null the
chain yields `undefined`, which differs from `'inactive'`. -/
def mrStateNeInactive : Option MediaRecorderM → Bool
  | none => true
  | some mr => decide (mr.state ≠ MRState.inactive)

/-- The `onended` handler installed on the screen video track
(lines 196-201): calls `stopRecording()` unless the encoder is already
inactive. -/
def handleTrackEnded (s : CState) : CState :=
  if mrStateNeInactive s.mediaRecorder then stopRecording s else s

/-- The `pauseRecording` callback (lines 234-240): pauses the encoder and
sets the pause flag only when the encoder state is `recording`. -/
def pauseRecording (s : CState) : CState × List Ev :=
  match s.mediaRecorder with
  | some mr =>
      if mr.state = MRState.recording then
        ({ s with
            mediaRecorder := some ⟨MRState.paused⟩
            recState := { s.recState with isPaused := true } },
         [Ev.toast ToastKind.info Msg.paused])
      else (s, [])
  | none => (s, [])

/-- The `resumeRecording` callback (lines 242-248): resumes the encoder
and clears the pause flag only when the encoder state is `paused`. -/
def resumeRecording (s : CState) : CState × List Ev :=
  match s.mediaRecorder with
  | some mr =>
      if mr.state = MRState.paused then
        ({ s with
            mediaRecorder := some ⟨MRState.recording⟩
            recState := { s.recState with isPaused := false } },
         [Ev.toast ToastKind.info Msg.resumed])
      else (s, [])
  | none => (s, [])

/-- The encoder sub-state currently held by the component. -/
def mrState (s : CState) : Option MRState :=
  s.mediaRecorder.map MediaRecorderM.state

/-- The `recorder.onstop` handler registered by `startRecording`
(lines 182-194).  `startTime` is the timestamp captured in the closure's
`startTimeRef`, `capturedMic` the closure's view of `micStream` (see
`cleanup`), and `now` the value of `Date.now()` when the completion
event fires.  `createVideoBlob` of `src/lib/recorder/compositor` is not
under `src/` and is modelled from the spec (section 4.5: concatenate all
buffered chunks in arrival order), so the blob is the chunk list itself. -/
def onstop (startTime : Nat) (capturedMic : Option MediaStream) (now : Nat)
    (s : CState) (w : World) : CState × World × List Ev :=
  let duration := (now - startTime) / 1000
  let blob := s.chunks
  let cw := cleanup capturedMic s w
  let s2 := { cw.1 with
      recState :=
        { isRecording := false, isPaused := false, duration := 0,
          startTime := none } }
  (s2, cw.2,
   [Ev.recordingComplete blob duration,
    Ev.toast ToastKind.success Msg.completed])

/-- The `handleAudioSettingsChange` callback (lines 259-261): merges a
patch into the `audioSettings` state and touches nothing else. -/
structure AudioSettingsPatch where
  microphoneEnabled : Option Bool
  systemAudioEnabled : Option Bool
  microphoneDeviceId : Option (Option Nat)
deriving Repr, DecidableEq

/-- Object-spread merge of a patch into the current audio settings. -/
def mergeAudioSettings (a : AudioSettings) (p : AudioSettingsPatch) :
    AudioSettings :=
  { microphoneEnabled := p.microphoneEnabled.getD a.microphoneEnabled
    systemAudioEnabled := p.systemAudioEnabled.getD a.systemAudioEnabled
    microphoneDeviceId := p.microphoneDeviceId.getD a.microphoneDeviceId }

/-- The `handleAudioSettingsChange` state transformer. -/
def handleAudioSettingsChange (p : AudioSettingsPatch) (s : CState) :
    CState :=
  { s with audioSettings := mergeAudioSettings s.audioSettings p }

/-- The result of the screen acquirer of `src/lib/recorder/screen` as
consumed by `startRecording`: the stream plus a `hasSystemAudio` flag.
The acquirer itself is not under `src/`; spec section 4.1 has it return
null on cancel and a stream that may or may not carry audio tracks. -/
structure ScreenResult where
  stream : MediaStream
  hasSystemAudio : Bool
deriving Repr, DecidableEq

/-- The asynchronous environment of one `startRecording` invocation:
the outcome of each awaited acquisition or construction, the fresh
resource ids the browser hands out, and the start timestamp. -/
structure StartEnv where
  screenResult : Option ScreenResult
  micResult : Except Unit MediaStream
  ctxId : Nat
  mixedTrackId : Nat
  compositorResult : Except Unit Compositor
  now : Nat
deriving Repr

/-- How one `startRecording` call resolved. -/
inductive StartOutcome
  | cancelled
  | compositorFailed
  | started
deriving Repr, DecidableEq

/-- The `startRecording` callback of `screen-recorder.tsx`
(lines 110-226), as a function of the invocation environment, the
component state at entry, and the resource world.

Every closure this invocation creates or calls (`cleanup` at line 158
and the `onstop` handler's `cleanup` at line 185) captures the
`micStream` React state value of the render that produced this
`startRecording` closure — `capturedMic` below — because `cleanup` is a
`useCallback` over `[micStream]`; the `setMicStream(mic)` call at
line 138 only affects later renders' closures.

Acquired resources enter the world as live when the corresponding await
resolves; on compositor construction failure the code path of
lines 155-160 runs `cleanup()` and returns. -/
def startRecording (env : StartEnv) (s0 : CState) (w0 : World) :
    StartOutcome × CState × World × List Ev :=
  let capturedMic := s0.micStream
  let s1 := { s0 with chunks := [] }
  match env.screenResult with
  | none =>
      (StartOutcome.cancelled, s1, w0,
       [Ev.toast ToastKind.error Msg.screenCancelled])
  | some sr =>
      let w1 := { w0 with liveTracks := sr.stream.tracks ++ w0.liveTracks }
      let s2 := { s1 with screenStream := some sr.stream }
      let sysAudio : Option MediaStream :=
        if sr.hasSystemAudio && s2.audioSettings.systemAudioEnabled then
          some ⟨[], sr.stream.audioTracks⟩
        else none
      let s3 := match sysAudio with
        | some sa => { s2 with systemAudioStream := some sa }
        | none => s2
      let micStep : Option MediaStream × CState × World × List Ev :=
        if s3.audioSettings.microphoneEnabled then
          match env.micResult with
          | Except.error _ =>
              (none, s3, w1, [Ev.toast ToastKind.warning Msg.micUnavailable])
          | Except.ok m =>
              (some m, { s3 with micStream := some m },
               { w1 with liveTracks := m.tracks ++ w1.liveTracks }, [])
        else (none, s3, w1, [])
      let mic := micStep.1
      let s4 := micStep.2.1
      let w2 := micStep.2.2.1
      let evs := micStep.2.2.2
      let mk := createAudioMixer mic sysAudio env.ctxId env.mixedTrackId w2
      let mixer := mk.1
      let w3 := mk.2
      let s5 := { s4 with audioMixer := some mixer }
      match env.compositorResult with
      | Except.error _ =>
          let cw := cleanup capturedMic s5 w3
          (StartOutcome.compositorFailed, cw.1, cw.2,
           evs ++ [Ev.toast ToastKind.error Msg.compositorFailed])
      | Except.ok comp =>
          let w4 := { w3 with liveLoops := comp.loopId :: w3.liveLoops }
          let s6 := { s5 with compositor := some comp }
          let s7 := { s6 with mediaRecorder := some ⟨MRState.recording⟩ }
          let s8 := { s7 with
              recState :=
                { isRecording := true, isPaused := false, duration := 0,
                  startTime := some env.now }
              durationInterval := some 1 }
          (StartOutcome.started, s8, w4,
           evs ++ [Ev.toast ToastKind.success Msg.started])

/-- Webcam anchor positions of `src/app/components/ScreenRecorder.tsx`. -/
inductive WebcamPosition
  | topLeft
  | topRight
  | bottomLeft
  | bottomRight
deriving Repr, DecidableEq

/-- A destination rectangle on the canvas, in canvas units. -/
structure OverlayRect where
  x : ℚ
  y : ℚ
  w : ℚ
  h : ℚ
deriving Repr, DecidableEq

/-- The overlay destination rectangle computed by `drawVideoFrame`
(`src/app/components/ScreenRecorder.tsx` lines 144-169): width is 25
percent of the canvas width, height scales the webcam's native aspect
ratio, and the anchor corner keeps a 16-unit margin from each adjacent
edge. -/
def overlayRect (canvasW canvasH : ℚ) (pos : WebcamPosition)
    (videoW videoH : ℚ) : OverlayRect :=
  let webcamWidth := canvasW * (25 / 100)
  let webcamHeight := (videoH / videoW) * webcamWidth
  match pos with
  | WebcamPosition.topLeft =>
      ⟨16, 16, webcamWidth, webcamHeight⟩
  | WebcamPosition.topRight =>
      ⟨canvasW - webcamWidth - 16, 16, webcamWidth, webcamHeight⟩
  | WebcamPosition.bottomLeft =>
      ⟨16, canvasH - webcamHeight - 16, webcamWidth, webcamHeight⟩
  | WebcamPosition.bottomRight =>
      ⟨canvasW - webcamWidth - 16, canvasH - webcamHeight - 16,
       webcamWidth, webcamHeight⟩

/-- The inputs one invocation of the `drawVideoFrame` callback reads:
whether the 2d context was obtained, whether `cleanupStreams()` has
already run (the source consults no such flag — recorded here so that
theorems can quantify over it), the webcam toggle, the webcam video
element (its readyState and native dimensions) or null, the canvas
dimensions, and the configured anchor. -/
structure DrawInput where
  hasCtx : Bool
  cleanupRan : Bool
  webcamEnabled : Bool
  webcamVideo : Option (Nat × ℚ × ℚ)
  canvasW : ℚ
  canvasH : ℚ
  pos : WebcamPosition
deriving Repr, DecidableEq

/-- What one invocation of the callback did: drew the primary frame,
drew an overlay at some rectangle, and whether it scheduled itself again
via `requestAnimationFrame`. -/
structure DrawResult where
  drewPrimary : Bool
  overlay : Option OverlayRect
  rescheduled : Bool
deriving Repr, DecidableEq

/-- The `drawVideoFrame` callback
(`src/app/components/ScreenRecorder.tsx` lines 136-187): returns early
only when the 2d context is null; otherwise it draws the screen frame,
draws the webcam overlay when the webcam is enabled, present, and has
`readyState >= 2`, and then unconditionally reschedules itself. -/
def drawVideoFrame (i : DrawInput) : DrawResult :=
  if i.hasCtx then
    { drewPrimary := true
      overlay :=
        match i.webcamVideo with
        | some (ready, vw, vh) =>
            if i.webcamEnabled && decide (2 ≤ ready) then
              some (overlayRect i.canvasW i.canvasH i.pos vw vh)
            else none
        | none => none
      rescheduled := true }
  else { drewPrimary := false, overlay := none, rescheduled := false }

/-- The component state of the app-level `ScreenRecorder`
(`src/app/components/ScreenRecorder.tsx`): the four stream refs torn
down by `cleanupStreams`. -/
structure AppState where
  screenStream : Option MediaStream
  micStream : Option MediaStream
  webcamStream : Option MediaStream
  combinedStream : Option MediaStream
deriving Repr, DecidableEq

/-- Stop every track of an optional stream ref, as the
`getTracks().forEach(track => track.stop())` blocks do. -/
def stopAllTracks : Option MediaStream → World → World
  | none, w => w
  | some m, w => w.stopTracks m.tracks

/-- The `cleanupStreams` callback
(`src/app/components/ScreenRecorder.tsx` lines 47-67): stops every track
of the four held streams and nulls the refs.  It performs no
`cancelAnimationFrame` and sets no flag read by `drawVideoFrame`. -/
def cleanupStreams (s : AppState) (w : World) : AppState × World :=
  let w := stopAllTracks s.screenStream w
  let w := stopAllTracks s.micStream w
  let w := stopAllTracks s.webcamStream w
  let w := stopAllTracks s.combinedStream w
  (⟨none, none, none, none⟩, w)

/-- The browser environment of the `startScreenCapture` utility: the
`navigator.mediaDevices.getDisplayMedia` entry point, taking the video
and audio constraint flags. -/
structure GDMEnv where
  call : Bool → Bool → Except Unit MediaStream

/-- Browser contract for `getDisplayMedia`: a stream granted for a
request with `audio: false` carries no audio track. -/
def browserContract (env : GDMEnv) : Prop :=
  ∀ v a s, env.call v a = Except.ok s → a = false → s.audioTracks = []

/-- The `startScreenCapture` utility of `src/unnamed/part_002`
(lines 4-15): requests display media with `video: true, audio: false`
and maps any rejection — including the user dismissing the picker — to
null.  It takes no settings: the audio constraint is the literal
`false`. -/
def startScreenCapture (env : GDMEnv) : Option MediaStream :=
  match env.call true false with
  | Except.ok s => some s
  | Except.error _ => none

/-- Whether an acquisition outcome is a failure. -/
def isErr : Except Unit MediaStream → Bool
  | Except.error _ => true
  | Except.ok _ => false

/-- Whether an optional stream carries no audio track. -/
def noAudio : Option MediaStream → Bool
  | none => true
  | some s => s.audioTracks.isEmpty

/-- The 16-unit corner margin discipline for an overlay rectangle: the
two canvas edges adjacent to the configured anchor are each 16 units
from the rectangle. -/
def marginOk : WebcamPosition → ℚ → ℚ → OverlayRect → Prop
  | WebcamPosition.topLeft, _, _, r => r.x = 16 ∧ r.y = 16
  | WebcamPosition.topRight, cw, _, r => r.x + r.w = cw - 16 ∧ r.y = 16
  | WebcamPosition.bottomLeft, _, ch, r => r.x = 16 ∧ r.y + r.h = ch - 16
  | WebcamPosition.bottomRight, cw, ch, r =>
      r.x + r.w = cw - 16 ∧ r.y + r.h = ch - 16

/-- Whether an event is the terminal `onRecordingComplete` callback. -/
def isCompletion : Ev → Bool
  | Ev.recordingComplete _ _ => true
  | _ => false

/-- Number of `onRecordingComplete` invocations in an event trace. -/
def completionCount (evs : List Ev) : Nat :=
  (evs.filter isCompletion).length

/-- The duration carried by a completion event, if any. -/
def durationOf : Ev → Option Nat
  | Ev.recordingComplete _ d => some d
  | _ => none

/-- The durations handed to `onRecordingComplete` in an event trace. -/
def reportedDurations (evs : List Ev) : List Nat :=
  evs.filterMap durationOf

/-- Every one of the given tracks is dead in the world. -/
def releasedB (w : World) (ts : List Nat) : Bool :=
  ts.all fun t => decide (t ∉ w.liveTracks)

/-- A held mixer's audio context is closed in the world. -/
def mixerReleasedB (w : World) : Option AudioMixer → Bool
  | none => true
  | some m => decide (m.ctxId ∉ w.liveContexts)

/-- A held compositor's render loop is stopped in the world. -/
def loopReleasedB (w : World) : Option Compositor → Bool
  | none => true
  | some c => decide (c.loopId ∉ w.liveLoops)

/-- An idle component state: nothing acquired, default settings, no
previous session. -/
def restState : CState :=
  { recState := ⟨false, false, 0, none⟩
    cameraSettings := ⟨CornerPos.bottomRight, SizeTier.medium,
                       OverlayShape.rectangle⟩
    audioSettings := ⟨true, true, none⟩
    cameraEnabled := true
    cameraStream := none
    micStream := none
    systemAudioStream := none
    mediaRecorder := none
    screenStream := none
    compositor := none
    audioMixer := none
    chunks := []
    durationInterval := none }

/-- An empty resource world. -/
def wEmpty : World := ⟨[], [], []⟩

/-- A state at the moment the encoder completion event fires: one chunk
was buffered and the encoder has gone inactive. -/
def sDone : CState :=
  { restState with
      chunks := [5]
      mediaRecorder := some ⟨MRState.inactive⟩ }

/-- A first-session `startRecording` environment in which screen capture
(video track 1, system-audio track 2) and the microphone (track 3) are
granted, the mixer context gets id 10, and compositor construction
fails. -/
def envCompFail : StartEnv :=
  { screenResult := some ⟨⟨[1], [2]⟩, true⟩
    micResult := Except.ok ⟨[], [3]⟩
    ctxId := 10
    mixedTrackId := 11
    compositorResult := Except.error ()
    now := 5000 }

/-- A draw-callback invocation occurring after `cleanupStreams()` has
already run. -/
def iAfterCleanup : DrawInput :=
  { hasCtx := true
    cleanupRan := true
    webcamEnabled := false
    webcamVideo := none
    canvasW := 1920
    canvasH := 1080
    pos := WebcamPosition.bottomRight }

/-- An app-recorder state holding all four streams, in a world where
they are live and one render loop (id 9) is scheduled. -/
def sAppLive : AppState :=
  ⟨some ⟨[1], [2]⟩, some ⟨[], [3]⟩, some ⟨[4], []⟩, some ⟨[5], []⟩⟩

/-- The world matching `sAppLive`. -/
def wAppLive : World := ⟨[1, 2, 3, 4, 5], [], [9]⟩

/-- A draw-callback invocation with an enabled webcam whose video has a
decoded frame ready (readyState 2) and native dimensions 640 by 480. -/
def iOverlay : DrawInput :=
  { hasCtx := true
    cleanupRan := false
    webcamEnabled := true
    webcamVideo := some (2, 640, 480)
    canvasW := 1920
    canvasH := 1080
    pos := WebcamPosition.topRight }

/-- A concrete `getDisplayMedia` environment: audio-bearing requests are
refused, audio-free requests yield a video-only stream. -/
def gdmOk : GDMEnv :=
  ⟨fun _ a => if a then Except.error () else Except.ok ⟨[0], []⟩⟩

lemma mem_stopTracks_iff (w : World) (ts : List Nat) (t : Nat) :
    t ∈ (w.stopTracks ts).liveTracks ↔ t ∈ w.liveTracks ∧ t ∉ ts := by
  simp [World.stopTracks, List.mem_filter]

lemma stopScreenCapture_mem (o : Option MediaStream) (w : World) (t : Nat) :
    t ∈ (stopScreenCapture o w).liveTracks
      ↔ t ∈ w.liveTracks ∧ t ∉ tracksOf o := by
  cases o <;> simp [stopScreenCapture, tracksOf, mem_stopTracks_iff]

lemma stopAudioStream_mem (o : Option MediaStream) (w : World) (t : Nat) :
    t ∈ (stopAudioStream o w).liveTracks
      ↔ t ∈ w.liveTracks ∧ t ∉ tracksOf o := by
  cases o <;> simp [stopAudioStream, tracksOf, mem_stopTracks_iff]

/-- C7: calling pause() outside the Live(Recording) encoder sub-state is
a no-op on state and emits nothing, and calling resume() outside the
Live(Paused) sub-state is likewise a no-op. -/
theorem c7_pause_resume_noop (s : CState) :
    (mrState s ≠ some MRState.recording → pauseRecording s = (s, [])) ∧
    (mrState s ≠ some MRState.paused → resumeRecording s = (s, [])) := by
  constructor
  · intro h
    cases hmr : s.mediaRecorder with
    | none => simp [pauseRecording, hmr]
    | some mr =>
        obtain ⟨st⟩ := mr
        cases st with
        | inactive => simp [pauseRecording, hmr]
        | recording => exact absurd (by simp [mrState, hmr]) h
        | paused => simp [pauseRecording, hmr]
  · intro h
    cases hmr : s.mediaRecorder with
    | none => simp [resumeRecording, hmr]
    | some mr =>
        obtain ⟨st⟩ := mr
        cases st with
        | inactive => simp [resumeRecording, hmr]
        | recording => simp [resumeRecording, hmr]
        | paused => exact absurd (by simp [mrState, hmr]) h

/-- Witness for C7 at a concrete idle state (no encoder held). -/
theorem c7_pause_resume_noop_witness :
    pauseRecording restState = (restState, []) ∧
    resumeRecording restState = (restState, []) :=
  ⟨(c7_pause_resume_noop restState).1 (by decide),
   (c7_pause_resume_noop restState).2 (by decide)⟩

/-- C2: the screen track's `onended` handler is the same state
transformer as the user-invoked `stopRecording` (the two triggers are
behaviorally equivalent), stopping leaves the encoder inactive whenever
one is held, and the shared completion handler invokes
`onRecordingComplete` exactly once. -/
theorem c2_track_ended_equiv_stop :
    (∀ s : CState, handleTrackEnded s = stopRecording s) ∧
    (∀ s : CState,
      mrState (stopRecording s) = (mrState s).map fun _ => MRState.inactive) ∧
    (∀ (startTime : Nat) (capturedMic : Option MediaStream) (now : Nat)
       (s : CState) (w : World),
      completionCount (onstop startTime capturedMic now s w).2.2 = 1) := by
  refine ⟨?_, ?_, ?_⟩
  · intro s
    cases hmr : s.mediaRecorder with
    | none => simp [handleTrackEnded, mrStateNeInactive, hmr]
    | some mr =>
        obtain ⟨st⟩ := mr
        cases st <;>
          simp [handleTrackEnded, mrStateNeInactive, stopRecording, hmr]
  · intro s
    cases hmr : s.mediaRecorder with
    | none => simp [stopRecording, mrState, hmr]
    | some mr =>
        obtain ⟨st⟩ := mr
        cases st <;> simp [stopRecording, mrState, hmr]
  · intro startTime capturedMic now s w
    rfl

/-- C3: the duration handed to `onRecordingComplete` is the floor of
(completion-time minus captured start-time) in whole seconds, for every
state — in particular it is the same whatever the pause flag says, so
paused wall-clock time is not subtracted. -/
theorem c3_duration_floor_seconds :
    ∀ (startTime now : Nat) (capturedMic : Option MediaStream) (s : CState)
      (w : World) (b : Bool),
      reportedDurations
        (onstop startTime capturedMic now
          { s with recState := { s.recState with isPaused := b } } w).2.2
        = [(now - startTime) / 1000] := by
  intro startTime now capturedMic s w b
  rfl

/-- C9: `handleAudioSettingsChange` only rewrites the settings value; it
leaves every acquired stream, the encoder, the mixer, the compositor,
the chunk buffer, and the recording state untouched, so a change made
while a session is live alters nothing the session acquired or records —
the flags matter only when `startRecording` next reads them. -/
theorem c9_audio_settings_frame :
    ∀ (p : AudioSettingsPatch) (s : CState),
      (handleAudioSettingsChange p s).screenStream = s.screenStream ∧
      (handleAudioSettingsChange p s).micStream = s.micStream ∧
      (handleAudioSettingsChange p s).systemAudioStream
        = s.systemAudioStream ∧
      (handleAudioSettingsChange p s).mediaRecorder = s.mediaRecorder ∧
      (handleAudioSettingsChange p s).compositor = s.compositor ∧
      (handleAudioSettingsChange p s).audioMixer = s.audioMixer ∧
      (handleAudioSettingsChange p s).chunks = s.chunks ∧
      (handleAudioSettingsChange p s).durationInterval
        = s.durationInterval ∧
      (handleAudioSettingsChange p s).recState = s.recState ∧
      (handleAudioSettingsChange p s).audioSettings
        = mergeAudioSettings s.audioSettings p := by
  intro p s
  exact ⟨rfl, rfl, rfl, rfl, rfl, rfl, rfl, rfl, rfl, rfl⟩

/-- C4 counterexample: at the success terminal transition (the encoder
completion handler) the buffered chunk survives — and the error/cleanup
path does not clear it either — so a chunk recorded by a session is
retained after that session ends, contradicting the claim. -/
theorem c4_chunks_retained_after_terminal :
    (onstop 1000 none 4500 sDone wEmpty).1.chunks = [5] ∧
    (cleanupSync sDone wEmpty).1.chunks = [5] ∧
    [5] ≠ ([] : List Nat) := by
  decide

/-- C4 amended: the chunk buffer is cleared at the beginning of every
`startRecording` call instead, so after `start()` resolves — on the
cancel path, the compositor-failure path, and the success path alike —
the buffer is empty and no stale chunk can enter a later session's
artifact. -/
theorem c4_buffer_cleared_at_start :
    ∀ (env : StartEnv) (s : CState) (w : World),
      (startRecording env s w).2.1.chunks = [] := by
  intro env s w
  obtain ⟨scr, micr, ctx, mtk, compr, nw⟩ := env
  cases scr with
  | none => rfl
  | some sr =>
      cases micr <;> cases compr <;>
        simp only [startRecording, cleanup] <;>
        (repeat' split) <;> rfl

/-- C5: after `cleanupStreams()` has run, the draw callback still draws
into the canvas and still reschedules itself — it consults no liveness
flag (its result is identical whether cleanup ran or not), and
`cleanupStreams` cancels no render loop. -/
theorem c5_loop_reschedules_after_cleanup :
    drawVideoFrame iAfterCleanup
      = { drewPrimary := true, overlay := none, rescheduled := true } ∧
    drawVideoFrame { iAfterCleanup with cleanupRan := false }
      = drawVideoFrame iAfterCleanup ∧
    (cleanupStreams sAppLive wAppLive).2.liveLoops = [9] := by
  refine ⟨rfl, rfl, ?_⟩
  decide

/-- C10: `startScreenCapture` of `src/unnamed/part_002` always requests
display media with the audio constraint hard-coded to false, so under
the browser contract the stream it returns never carries an audio track
regardless of any user setting; and it returns null exactly when the
underlying acquisition fails (including picker dismissal), never
propagating the failure. -/
theorem c10_screen_capture_no_audio :
    ∀ env : GDMEnv, browserContract env →
      noAudio (startScreenCapture env) = true ∧
      (startScreenCapture env = none
        ↔ isErr (env.call true false) = true) := by
  intro env h
  constructor
  · cases hc : env.call true false with
    | ok s =>
        have hs := h true false s hc rfl
        simp [startScreenCapture, hc, noAudio, hs]
    | error e => simp [startScreenCapture, hc, noAudio]
  · cases hc : env.call true false <;>
      simp [startScreenCapture, hc, isErr]

/-- Witness for C10 at a concrete browser environment. -/
theorem c10_screen_capture_no_audio_witness :
    browserContract gdmOk ∧
    (noAudio (startScreenCapture gdmOk) = true ∧
     (startScreenCapture gdmOk = none
        ↔ isErr (gdmOk.call true false) = true)) := by
  have hb : browserContract gdmOk := by
    intro v a s h ha
    subst ha
    simp only [gdmOk, if_neg Bool.false_ne_true] at h
    cases h
    rfl
  exact ⟨hb, c10_screen_capture_no_audio gdmOk hb⟩

/-- C1: evaluating `startRecording` in a first session where screen
(tracks 1, 2) and microphone (track 3) were acquired and compositor
construction then fails: `start()` resolves to the error outcome, the
session never reaches Live(Recording), the screen tracks and mixer
context are rolled back — but the microphone track 3 is still live,
because the `cleanup()` closure captured the pre-session `micStream`
value (null) rather than the stream just acquired.  The claimed
zero-leak rollback does not hold for the microphone. -/
theorem c1_compositor_failure_leaks_mic :
    (startRecording envCompFail restState wEmpty).1
      = StartOutcome.compositorFailed ∧
    (startRecording envCompFail restState wEmpty).2.2.1.liveTracks = [3] ∧
    (startRecording envCompFail restState wEmpty).2.2.1.liveContexts = [] ∧
    (startRecording envCompFail restState wEmpty).2.1.screenStream = none ∧
    (startRecording envCompFail restState wEmpty).2.1.micStream = none ∧
    (startRecording envCompFail restState wEmpty).2.1.recState.isRecording
      = false ∧
    (startRecording envCompFail restState wEmpty).2.2.2
      = [Ev.toast ToastKind.error Msg.compositorFailed] := by
  decide

/-- C8: whenever a frame is rendered with the webcam enabled, present,
and holding a decoded frame (readyState at least 2), the drawn overlay
rectangle has width exactly one quarter of the canvas width, a height in
the webcam's native aspect ratio, and sits at the configured corner
anchor with a 16-unit margin from each adjacent canvas edge. -/
theorem c8_overlay_rect_geometry
    (i : DrawInput) (ready : Nat) (vw vh : ℚ)
    (hctx : i.hasCtx = true) (hen : i.webcamEnabled = true)
    (hvid : i.webcamVideo = some (ready, vw, vh))
    (hready : 2 ≤ ready) (hvw : 0 < vw) :
    (drawVideoFrame i).overlay
      = some (overlayRect i.canvasW i.canvasH i.pos vw vh) ∧
    (overlayRect i.canvasW i.canvasH i.pos vw vh).w = i.canvasW / 4 ∧
    (overlayRect i.canvasW i.canvasH i.pos vw vh).h * vw
      = vh * (overlayRect i.canvasW i.canvasH i.pos vw vh).w ∧
    marginOk i.pos i.canvasW i.canvasH
      (overlayRect i.canvasW i.canvasH i.pos vw vh) := by
  refine ⟨?_, ?_, ?_, ?_⟩
  · simp [drawVideoFrame, hctx, hvid, hen, hready]
  · cases i.pos <;> simp [overlayRect] <;> ring
  · cases i.pos <;> simp [overlayRect] <;> field_simp <;> ring
  · cases i.pos <;> simp [overlayRect, marginOk] <;>
      first
        | (constructor <;> ring)
        | ring

/-- Witness for C8: a ready 640x480 webcam on a 1920x1080 canvas,
anchored top-right. -/
theorem c8_overlay_rect_geometry_witness :
    (2 ≤ 2) ∧ ((0 : ℚ) < 640) ∧
    ((drawVideoFrame iOverlay).overlay
        = some (overlayRect iOverlay.canvasW iOverlay.canvasH iOverlay.pos
            640 480) ∧
      (overlayRect iOverlay.canvasW iOverlay.canvasH iOverlay.pos 640 480).w
        = iOverlay.canvasW / 4 ∧
      (overlayRect iOverlay.canvasW iOverlay.canvasH iOverlay.pos 640 480).h
          * 640
        = 480 * (overlayRect iOverlay.canvasW iOverlay.canvasH iOverlay.pos
            640 480).w ∧
      marginOk iOverlay.pos iOverlay.canvasW iOverlay.canvasH
        (overlayRect iOverlay.canvasW iOverlay.canvasH iOverlay.pos
          640 480)) :=
  ⟨le_refl 2, by norm_num,
   c8_overlay_rect_geometry iOverlay 2 640 480 rfl rfl rfl (le_refl 2)
     (by norm_num)⟩

lemma releasedB_eq_true (w : World) (ts : List Nat)
    (h : ∀ t ∈ ts, t ∉ w.liveTracks) : releasedB w ts = true := by
  simpa [releasedB, List.all_eq_true] using h

lemma cleanup_dead_track (cm : Option MediaStream) (s : CState) (w : World)
    (t : Nat) (ht : t ∈ tracksOf s.screenStream ∨ t ∈ tracksOf cm) :
    t ∉ (cleanup cm s w).2.liveTracks := by
  cases hm : s.audioMixer <;> cases hc : s.compositor <;>
    simp only [cleanup, hm, hc] <;>
    simp [stopAudioStream_mem, stopScreenCapture_mem, AudioMixer.cleanup,
          Compositor.cleanup] <;>
    tauto

lemma cleanup_mixer_ctx_dead (cm : Option MediaStream) (s : CState)
    (w : World) :
    mixerReleasedB (cleanup cm s w).2 s.audioMixer = true := by
  cases hm : s.audioMixer with
  | none => rfl
  | some m =>
      cases hc : s.compositor <;> cases hss : s.screenStream <;>
        cases hcm : cm <;>
        simp [mixerReleasedB, cleanup, hm, hc, hss, hcm, AudioMixer.cleanup,
              Compositor.cleanup, stopScreenCapture, stopAudioStream,
              World.stopTracks, List.mem_filter]

lemma cleanup_loop_dead (cm : Option MediaStream) (s : CState) (w : World) :
    loopReleasedB (cleanup cm s w).2 s.compositor = true := by
  cases hc : s.compositor with
  | none => rfl
  | some c =>
      cases hm : s.audioMixer <;> cases hss : s.screenStream <;>
        cases hcm : cm <;>
        simp [loopReleasedB, cleanup, hm, hc, hss, hcm, AudioMixer.cleanup,
              Compositor.cleanup, stopScreenCapture, stopAudioStream,
              World.stopTracks, List.mem_filter]

/-- C6: the teardown routine is total on every component state, a second
in-sync invocation changes nothing (idempotence), and one invocation
nulls every held reference (encoder, compositor, mixer, screen and
microphone streams, duration interval) and kills every resource they
named: all screen and microphone tracks, the mixer's audio context, and
the compositor's render loop. -/
theorem c6_cleanup_idempotent_total_release :
    ∀ (s : CState) (w : World),
      cleanupSync (cleanupSync s w).1 (cleanupSync s w).2 = cleanupSync s w ∧
      (cleanupSync s w).1.mediaRecorder = none ∧
      (cleanupSync s w).1.compositor = none ∧
      (cleanupSync s w).1.audioMixer = none ∧
      (cleanupSync s w).1.screenStream = none ∧
      (cleanupSync s w).1.micStream = none ∧
      (cleanupSync s w).1.systemAudioStream = none ∧
      (cleanupSync s w).1.durationInterval = none ∧
      releasedB (cleanupSync s w).2 (tracksOf s.screenStream) = true ∧
      releasedB (cleanupSync s w).2 (tracksOf s.micStream) = true ∧
      mixerReleasedB (cleanupSync s w).2 s.audioMixer = true ∧
      loopReleasedB (cleanupSync s w).2 s.compositor = true := by
  intro s w
  refine ⟨?_, rfl, rfl, rfl, rfl, rfl, rfl, rfl, ?_, ?_, ?_, ?_⟩
  · rfl
  · exact releasedB_eq_true _ _ fun t ht =>
      cleanup_dead_track s.micStream s w t (Or.inl ht)
  · exact releasedB_eq_true _ _ fun t ht =>
      cleanup_dead_track s.micStream s w t (Or.inr ht)
  · exact cleanup_mixer_ctx_dead s.micStream s w
  · exact cleanup_loop_dead s.micStream s w
